import Mathlib

/-!
Verification development for the neomutt mailbox access layer (src/mx.h).

The repository sample contains the API header `src/mx.h` with the documented
contracts of the backend operation table `struct MxOps` and of the `mx_*`
wrapper functions, together with `src/sort.h` and an unrelated test fixture.
The implementations (mx.c, the per-backend path/mailbox code) are not part of
the sample, so operation bodies below are modelled from the specification,
while every precondition and postcondition is embedded verbatim from the
contract comments of `src/mx.h`.

Machine integers are modelled as `Int`; C strings as `Option String`
(`none` = NULL); the `FILE *` stream of a message as a Bool recording
whether the stream is open.
-/

namespace Mx

/-- Modelled from the spec: `enum MailboxType` lives in core/lib.h (not in the
sample); `mx.h` uses it as the backend type tag, with `MUTT_UNKNOWN` as the
"type not yet probed" value. Only the distinctions the claims need are kept. -/
inductive MailboxType where
  | unknown
  | mbox
  | maildir
  | mh
  | imap
  | pop
  | notmuch
  deriving DecidableEq, Repr

/-- The six-member status vocabulary of `enum MxStatus`, src/mx.h lines 72-80:
returned by mx_mbox_check(), mx_mbox_sync() and mx_mbox_close(). -/
inductive MxStatus where
  | error    -- MX_STATUS_ERROR = -1
  | ok       -- MX_STATUS_OK
  | newMail  -- MX_STATUS_NEW_MAIL
  | locked   -- MX_STATUS_LOCKED
  | reopened -- MX_STATUS_REOPENED
  | flags    -- MX_STATUS_FLAGS
  deriving DecidableEq, Repr

/-- The C integer value of each `enum MxStatus` member (ERROR = -1, then
OK, NEW_MAIL, LOCKED, REOPENED, FLAGS counting up from 0). -/
def MxStatus.toInt : MxStatus → Int
  | .error    => -1
  | .ok       => 0
  | .newMail  => 1
  | .locked   => 2
  | .reopened => 3
  | .flags    => 4

/-- `enum MxOpenReturns`, src/mx.h lines 85-90. -/
inductive MxOpenReturns where
  | ok
  | error
  | abort
  deriving DecidableEq, Repr

/-- The tentative flag set of `struct Message` (src/mx.h lines 101-107). -/
structure MessageFlags where
  read : Bool
  flagged : Bool
  replied : Bool
  draft : Bool
  deriving DecidableEq, Repr

/-- `struct Message`, src/mx.h lines 95-109: a transactional handle onto one
email. `fpOpen` models whether the `FILE *fp` stream is open; `path` is the
temp-file (working) location; `committed_path` is the final path generated by
mx_msg_commit(), absent until commit succeeds. -/
structure Message where
  fpOpen : Bool
  path : Option String
  committed_path : Option String
  write : Bool
  flags : MessageFlags
  received : Int
  deriving DecidableEq, Repr

/-- Modelled from the spec: one durably committed message of a mail store
(content, tentative flag set applied at commit time, free-form tags). -/
structure StoredMsg where
  content : String
  flags : MessageFlags
  tags : String
  deriving DecidableEq, Repr

/-- Modelled from the spec: the observable state of one mail store — the list
of committed (reader-visible) messages and the uncommitted working files that
exist on disk but are invisible to readers. The Mailbox message count is the
length of `msgs`. -/
structure MailboxView where
  msgs : List StoredMsg
  tempFiles : List String
  deriving DecidableEq, Repr

/-- `struct stat` is opaque to this layer (src/mx.h forward-declares it);
only its presence or absence (`Option Stat`) matters to the contracts. -/
structure Stat where
  st_dev : Nat
  st_ino : Nat
  deriving DecidableEq, Repr

/-- The lifecycle flag set {MPATH_RESOLVED, MPATH_TIDY, MPATH_CANONICAL} of a
struct Path, as used by the path2_* contracts of src/mx.h. -/
structure PathFlags where
  resolved : Bool
  tidy : Bool
  canonical : Bool
  deriving DecidableEq, Repr

/-- `struct Path` (forward-declared in src/mx.h; fields as used by the
path2_* contracts): original string, canonical string (absent until
computed), pretty string (absent until computed), backend type tag (unknown
until probed), lifecycle flags. -/
structure Path where
  orig : Option String
  canon : Option String
  pretty : Option String
  type : MailboxType
  flags : PathFlags
  deriving DecidableEq, Repr

/-- Outcome of one Path stage operation: a contract violation (precondition
not met — a programmer error, reported loudly), a runtime failure (retval -1),
or success carrying the updated Path. -/
inductive StageResult where
  | contractViolation
  | failure
  | success (p : Path)
  deriving DecidableEq, Repr

/-- Precondition of MxOps::path2_tidy as the spec states it (spec section 4.1
and the contract of src/mx.h lines 495-501 minus its type clause): orig
present, canon absent, RESOLVED set, TIDY and CANONICAL unset. The header
additionally demands a known type; that clause is embedded separately as
`tidyPreHdrB` and shown inconsistent with the header's own probe contract. -/
def tidyPreB (p : Path) : Bool :=
  p.orig.isSome && p.canon.isNone &&
    p.flags.resolved && !p.flags.tidy && !p.flags.canonical

/-- The verbatim precondition of MxOps::path2_tidy from src/mx.h lines
495-501, including the clause `path->type is not #MUTT_UNKNOWN`. -/
def tidyPreHdrB (p : Path) : Bool :=
  tidyPreB p && !(p.type == .unknown)

/-- Precondition of MxOps::path2_probe, src/mx.h lines 475-482: orig present,
canon absent, type still MUTT_UNKNOWN, RESOLVED and TIDY set, CANONICAL
unset. The stat clause (`st` non-NULL when the backend is local) is a
separate argument-wellformedness condition, `probeStatOkB`. -/
def probePreB (p : Path) : Bool :=
  p.orig.isSome && p.canon.isNone && p.type == .unknown &&
    p.flags.resolved && p.flags.tidy && !p.flags.canonical

/-- The stat-buffer clause of the probe contract (src/mx.h line 482):
`st is not NULL if MxOps::is_local is set`. -/
def probeStatOkB (is_local : Bool) (st : Option Stat) : Bool :=
  !is_local || st.isSome

/-- Precondition of MxOps::path2_canon, src/mx.h lines 387-393: orig present,
canon absent, type known, flags RESOLVED and TIDY, not CANONICAL. -/
def canonPreB (p : Path) : Bool :=
  p.orig.isSome && p.canon.isNone && !(p.type == .unknown) &&
    p.flags.resolved && p.flags.tidy && !p.flags.canonical

/-- Precondition of MxOps::path2_compare on each argument, src/mx.h lines
409-415: canon present, type known, flags RESOLVED, TIDY and CANONICAL. -/
def comparePreB (p : Path) : Bool :=
  p.canon.isSome && !(p.type == .unknown) &&
    p.flags.resolved && p.flags.tidy && p.flags.canonical

/-- Precondition of MxOps::path2_parent, src/mx.h lines 427-434: orig
present, type known, flags RESOLVED and TIDY (the out-parameter clauses are
absorbed by the return value). -/
def parentPreB (p : Path) : Bool :=
  p.orig.isSome && !(p.type == .unknown) && p.flags.resolved && p.flags.tidy

/-- Modelled from the spec: MxOps::path2_tidy (implementation not in the
sample; contract at src/mx.h lines 489-507). `norm` stands for the backend's
string normalisation; `ok` for whether it succeeds (it fails only on
malformed input). On success orig is replaced by the tidier string and
MPATH_TIDY is added; nothing else changes. -/
def path2_tidy (norm : String → String) (ok : Bool) (p : Path) : StageResult :=
  if tidyPreB p then
    if ok then
      .success { p with orig := some (norm (p.orig.getD "")),
                        flags := { p.flags with tidy := true } }
    else .failure
  else .contractViolation

/-- MxOps::path2_tidy with the header's verbatim precondition `tidyPreHdrB`
(src/mx.h lines 495-501), kept separately to exhibit the contract clash with
path2_probe. -/
def path2_tidy_hdr (norm : String → String) (ok : Bool) (p : Path) : StageResult :=
  if tidyPreHdrB p then
    if ok then
      .success { p with orig := some (norm (p.orig.getD "")),
                        flags := { p.flags with tidy := true } }
    else .failure
  else .contractViolation

/-- Modelled from the spec: MxOps::path2_probe (implementation not in the
sample; contract at src/mx.h lines 468-487). `t` stands for the backend type
the probe determines (`MailboxType.unknown` when no backend claims the path);
`st` is the stat buffer, required when the backend is local (`is_local`). On
success only the type is set; the lifecycle flags are untouched. -/
def path2_probe (t : MailboxType) (st : Option Stat) (is_local : Bool)
    (p : Path) : StageResult :=
  if probePreB p && probeStatOkB is_local st then
    if t == .unknown then .failure
    else .success { p with type := t }
  else .contractViolation

/-- Modelled from the spec: MxOps::path2_canon (implementation not in the
sample; contract at src/mx.h lines 381-399). `canonize` stands for the
backend's canonicalisation of the orig string; `ok` for whether it succeeds.
On success canon is set to a new string and MPATH_CANONICAL is added. -/
def path2_canon (canonize : String → String) (ok : Bool) (p : Path) : StageResult :=
  if canonPreB p then
    if ok then
      .success { p with canon := some (canonize (p.orig.getD "")),
                        flags := { p.flags with canonical := true } }
    else .failure
  else .contractViolation

/-- MxOps::path2_compare (implementation not in the sample; contract at
src/mx.h lines 401-417): a three-way ordering over the canonical strings,
-1 when path1 precedes path2, 0 when identical, 1 when path2 precedes. -/
def path2_compare (p1 p2 : Path) : Int :=
  let c1 := p1.canon.getD ""
  let c2 := p2.canon.getD ""
  if c1 < c2 then -1 else if c2 < c1 then 1 else 0

/-- Outcome of MxOps::path2_parent, src/mx.h lines 419-443: retval 0 carries
the new parent Path, retval -1 means the path is a root and has no parent,
retval -2 is an error; precondition not met is a contract violation. -/
inductive ParentResult where
  | contractViolation
  | success (q : Path)
  | noParent
  | error
  deriving DecidableEq, Repr

/-- True exactly on the `success` outcome. -/
def ParentResult.isSuccess : ParentResult → Bool
  | .success _ => true
  | _ => false

/-- Modelled from the spec: MxOps::path2_parent (implementation not in the
sample; contract at src/mx.h lines 419-443). `parentStr` stands for the
backend's computation of the containing location (`none` when the path is a
root); `err` models the documented "-2 Error" outcome (e.g. an allocation
failure). On success a fresh Path is returned whose orig is the parent
string, whose type equals the input's, and whose flags are MPATH_RESOLVED
and MPATH_TIDY only; the input Path is not modified. -/
def path2_parent (parentStr : String → Option String) (err : Bool)
    (p : Path) : ParentResult :=
  if parentPreB p then
    if err then .error
    else
      match parentStr (p.orig.getD "") with
      | none => .noParent
      | some s =>
          .success { orig := some s, canon := none, pretty := none,
                     type := p.type,
                     flags := { resolved := true, tidy := true, canonical := false } }
  else .contractViolation

/-- `struct MxOps` head and the backend mailbox operations, src/mx.h lines
117-211 and 290-319: type tag, name, `is_local` marker, the session
operations returning `enum MxStatus`, and whether the optional tags
capability pair (tags_edit / tags_commit) is implemented (a NULL function
pointer in C is `false` here). The operations act on the observable store
state `MailboxView`. -/
structure MxOps where
  type : MailboxType
  name : String
  is_local : Bool
  mbox_check : MailboxView → MxStatus
  mbox_sync : MailboxView → MxStatus
  mbox_close : MailboxView → MxStatus
  hasTagsEdit : Bool
  hasTagsCommit : Bool

/-- Modelled from the spec: `struct Mailbox` (core/lib.h, not in the sample)
as this layer sees it — the backend operation table selected once by the
type tag, and the observable store state. -/
structure Mailbox where
  ops : MxOps
  view : MailboxView

/-- Modelled from the spec: mx_mbox_check (src/mx.h line 528) dispatches to
the Mailbox's backend mbox_check. -/
def mx_mbox_check (m : Mailbox) : MxStatus :=
  m.ops.mbox_check m.view

/-- Modelled from the spec: mx_mbox_sync (src/mx.h line 532) dispatches to
the Mailbox's backend mbox_sync. -/
def mx_mbox_sync (m : Mailbox) : MxStatus :=
  m.ops.mbox_sync m.view

/-- Modelled from the spec: mx_mbox_close (src/mx.h line 530) dispatches to
the Mailbox's backend mbox_close. -/
def mx_mbox_close (m : Mailbox) : MxStatus :=
  m.ops.mbox_close m.view

/-- Modelled from the spec: mx_msg_commit / MxOps::msg_commit (declaration at
src/mx.h lines 241-252 and 534; implementation not in the sample). `ok`
stands for whether the backend write (atomic rename into the visible
namespace, or locked atomic append) succeeds. Returns the C retval (0
success, -1 failure), the Mailbox and the Message handle. On success the
working file becomes a committed message and `committed_path` is set to the
final path; on failure nothing changes: the working location stays on disk
in `tempFiles`, uncommitted and invisible to readers. -/
def mx_msg_commit (ok : Bool) (m : Mailbox) (msg : Message) :
    Int × Mailbox × Message :=
  if ok then
    let work := msg.path.getD ""
    let final := "store/" ++ work
    (0,
     { m with view := { msgs := m.view.msgs ++ [⟨work, msg.flags, ""⟩],
                        tempFiles := m.view.tempFiles.erase work } },
     { msg with committed_path := some final })
  else
    (-1, m, msg)

/-- Modelled from the spec: mx_msg_close / MxOps::msg_close (declaration at
src/mx.h lines 254-265 and 533; implementation not in the sample). Releases
the handle — closes the data stream and drops the working-path reference —
whether or not commit occurred; it never fails (retval 0) and has no effect
on the store beyond resource release. -/
def mx_msg_close (m : Mailbox) (msg : Message) : Int × Mailbox × Message :=
  (0, m, { msg with fpOpen := false, path := none })

/-- Modelled from the spec: mx_tags_is_supported (src/mx.h line 561) — the
capability query: true when the backend implements both tags_edit and
tags_commit. -/
def mx_tags_is_supported (m : Mailbox) : Bool :=
  m.ops.hasTagsEdit && m.ops.hasTagsCommit

/-- Modelled from the spec: the backend tags_edit validation (contract at
src/mx.h lines 290-304). `valid` stands for the backend's validation of a
proposed tag string against the existing tag set `tags`; `input` is the
user's proposed string (`none` = no valid user input). Tri-state retval: -1
invalid input, 0 no valid user input, 1 buffer produced (with the buffer). -/
def tags_edit_backend (valid : String → String → Bool) (tags : String)
    (input : Option String) : Int × Option String :=
  match input with
  | none => (0, none)
  | some s => if valid tags s then (1, some s) else (-1, none)

/-- Modelled from the spec: mx_tags_edit (src/mx.h line 547): dispatches to
the backend tags_edit when the capability is present, otherwise reports -1;
validation mutates neither the Mailbox nor any message. -/
def mx_tags_edit (valid : String → String → Bool) (m : Mailbox) (tags : String)
    (input : Option String) : Int × Option String × Mailbox :=
  if mx_tags_is_supported m then
    let r := tags_edit_backend valid tags input
    (r.1, r.2, m)
  else
    (-1, none, m)

/-- Modelled from the spec: mx_tags_commit (src/mx.h line 546): the separate,
explicit persistence step — writes the validated buffer as the tags of the
message at `idx`, the only place tag state changes. -/
def mx_tags_commit (m : Mailbox) (idx : Nat) (buf : String) : Int × Mailbox :=
  if mx_tags_is_supported m then
    match m.view.msgs.get? idx with
    | none => (-1, m)
    | some sm =>
        (0, { m with view := { m.view with
                msgs := m.view.msgs.set idx { sm with tags := buf } } })
  else
    (-1, m)

/-- Modelled from the spec: mx_path_is_empty / MxOps::path_is_empty
(contract at src/mx.h lines 369-379 and 558; implementation not in the
sample). `store` maps mailbox path strings to their message lists; a path
that cannot be examined (absent from the store) is an error. Retval 1 when
the mailbox is empty, 0 when it contains mail, -1 on error; the contract
requires `path` non-NULL (non-NULL by type here) and non-empty. -/
def mx_path_is_empty (store : List (String × List StoredMsg))
    (path : String) : Int :=
  if path = "" then -1
  else
    match store.lookup path with
    | none => -1
    | some msgs => if msgs.isEmpty then 1 else 0

/-! Concrete fixtures used to instantiate the theorems below. -/

/-- A local single-file backend descriptor with no tags capability. -/
def opsMboxLocal : MxOps :=
  { type := .mbox, name := "mbox", is_local := true,
    mbox_check := fun _ => .ok, mbox_sync := fun _ => .ok,
    mbox_close := fun _ => .ok, hasTagsEdit := false, hasTagsCommit := false }

/-- A non-local backend descriptor implementing the tags capability pair. -/
def opsNotmuchTags : MxOps :=
  { type := .notmuch, name := "notmuch", is_local := false,
    mbox_check := fun _ => .ok, mbox_sync := fun _ => .ok,
    mbox_close := fun _ => .ok, hasTagsEdit := true, hasTagsCommit := true }

/-- A mailbox with one committed message and one uncommitted working file. -/
def mbC1 : Mailbox :=
  { ops := opsMboxLocal,
    view := { msgs := [⟨"hello", ⟨true, false, false, false⟩, ""⟩],
              tempFiles := ["tmp/1"] } }

/-- A message handle open for writing on the working file of `mbC1`. -/
def msgC1 : Message :=
  { fpOpen := true, path := some "tmp/1", committed_path := none,
    write := true, flags := ⟨false, true, false, true⟩, received := 100 }

/-- A resolved, untidied Path of still-unknown type: the input the spec
pipeline hands to the tidy stage. -/
def pC4 : Path :=
  ⟨some "/a//b", none, none, .unknown, ⟨true, false, false⟩⟩

/-- The Path produced by a successful (identity-normalisation) tidy of
`pC4`: RESOLVED and TIDY set, type still unknown — the input the spec
pipeline hands to the probe stage. -/
def qC4 : Path :=
  ⟨some "/a//b", none, none, .unknown, ⟨true, true, false⟩⟩

/-- A resolved and tidied maildir Path, not yet canonical. -/
def pC8 : Path :=
  ⟨some "/a/b", none, none, .maildir, ⟨true, true, false⟩⟩

/-- A fully canonicalized Path (RESOLVED, TIDY, CANONICAL, canon present). -/
def pC6 : Path :=
  ⟨some "/x", some "/x", none, .maildir, ⟨true, true, true⟩⟩

/-! The claims. -/

/-- C1: for every mailbox and message handle open for writing, if msg_commit
fails (returns -1) then the Mailbox — its message count and every previously
committed message — is unchanged, and the working location remains on disk
(still in `tempFiles`), uncommitted and invisible to readers:
`committed_path` stays absent. -/
theorem C1_commit_failure_frame (ok : Bool) (m : Mailbox) (msg : Message)
    (hw : msg.write = true) (hnc : msg.committed_path = none)
    (hdisk : msg.path.getD "" ∈ m.view.tempFiles)
    (hfail : (mx_msg_commit ok m msg).1 = -1) :
    (mx_msg_commit ok m msg).2.1 = m ∧
    (mx_msg_commit ok m msg).2.1.view.msgs.length = m.view.msgs.length ∧
    (mx_msg_commit ok m msg).2.1.view.msgs = m.view.msgs ∧
    (mx_msg_commit ok m msg).2.2.committed_path = none ∧
    msg.path.getD "" ∈ (mx_msg_commit ok m msg).2.1.view.tempFiles := by
  cases ok with
  | true => simp [mx_msg_commit] at hfail
  | false => simp [mx_msg_commit, hnc, hdisk]

/-- Witness for C1: committing the open-for-writing handle `msgC1` against
`mbC1` with a failing backend write leaves everything unchanged. -/
theorem C1_commit_failure_frame_witness :
    msgC1.write = true ∧ msgC1.committed_path = none ∧
    msgC1.path.getD "" ∈ mbC1.view.tempFiles ∧
    (mx_msg_commit false mbC1 msgC1).1 = -1 ∧
    ((mx_msg_commit false mbC1 msgC1).2.1 = mbC1 ∧
     (mx_msg_commit false mbC1 msgC1).2.1.view.msgs.length
       = mbC1.view.msgs.length ∧
     (mx_msg_commit false mbC1 msgC1).2.1.view.msgs = mbC1.view.msgs ∧
     (mx_msg_commit false mbC1 msgC1).2.2.committed_path = none ∧
     msgC1.path.getD "" ∈ (mx_msg_commit false mbC1 msgC1).2.1.view.tempFiles) :=
  ⟨rfl, rfl, by decide, rfl,
   C1_commit_failure_frame false mbC1 msgC1 rfl rfl (by decide) rfl⟩

/-- C2: mx_mbox_check, mx_mbox_sync and mx_mbox_close each return a value of
exactly the six-member MxStatus vocabulary {OK, NEW_MAIL, LOCKED, REOPENED,
FLAGS, ERROR}; no other value passes through this channel. -/
theorem C2_status_vocabulary (m : Mailbox) :
    (mx_mbox_check m = .error ∨ mx_mbox_check m = .ok ∨
     mx_mbox_check m = .newMail ∨ mx_mbox_check m = .locked ∨
     mx_mbox_check m = .reopened ∨ mx_mbox_check m = .flags) ∧
    (mx_mbox_sync m = .error ∨ mx_mbox_sync m = .ok ∨
     mx_mbox_sync m = .newMail ∨ mx_mbox_sync m = .locked ∨
     mx_mbox_sync m = .reopened ∨ mx_mbox_sync m = .flags) ∧
    (mx_mbox_close m = .error ∨ mx_mbox_close m = .ok ∨
     mx_mbox_close m = .newMail ∨ mx_mbox_close m = .locked ∨
     mx_mbox_close m = .reopened ∨ mx_mbox_close m = .flags) := by
  have aux : ∀ s : MxStatus,
      s = .error ∨ s = .ok ∨ s = .newMail ∨ s = .locked ∨
      s = .reopened ∨ s = .flags := by
    intro s
    cases s <;> simp
  exact ⟨aux _, aux _, aux _⟩

/-- C3: lifecycle flags are acquired monotonically in the order RESOLVED,
TIDY, (type-probe), CANONICAL: a successful tidy requires RESOLVED and adds
exactly TIDY, a successful probe leaves the flags untouched (its stage
marker is the type), a successful canon requires RESOLVED and TIDY and adds
exactly CANONICAL; no stage ever removes a flag already set. -/
theorem C3_flags_monotone :
    (∀ (norm : String → String) (ok : Bool) (p q : Path),
        path2_tidy norm ok p = .success q →
        p.flags.resolved = true ∧ p.flags.tidy = false ∧
        q.flags.resolved = p.flags.resolved ∧ q.flags.tidy = true ∧
        q.flags.canonical = p.flags.canonical) ∧
    (∀ (t : MailboxType) (st : Option Stat) (l : Bool) (p q : Path),
        path2_probe t st l p = .success q →
        p.flags.resolved = true ∧ p.flags.tidy = true ∧
        q.flags = p.flags) ∧
    (∀ (canonize : String → String) (ok : Bool) (p q : Path),
        path2_canon canonize ok p = .success q →
        p.flags.resolved = true ∧ p.flags.tidy = true ∧
        p.flags.canonical = false ∧
        q.flags.resolved = p.flags.resolved ∧ q.flags.tidy = p.flags.tidy ∧
        q.flags.canonical = true) := by
  refine ⟨?_, ?_, ?_⟩
  · intro norm ok p q h
    unfold path2_tidy at h
    split at h
    · split at h
      · have h' := StageResult.success.inj h
        subst h'
        rename_i hpre hok
        simp [tidyPreB] at hpre
        obtain ⟨⟨⟨⟨-, -⟩, h1⟩, h2⟩, -⟩ := hpre
        exact ⟨h1, h2, rfl, rfl, rfl⟩
      · exact StageResult.noConfusion h
    · exact StageResult.noConfusion h
  · intro t st l p q h
    unfold path2_probe at h
    split at h
    · split at h
      · exact StageResult.noConfusion h
      · have h' := StageResult.success.inj h
        subst h'
        rename_i hpre hok
        rw [Bool.and_eq_true] at hpre
        obtain ⟨hp, -⟩ := hpre
        simp [probePreB] at hp
        obtain ⟨⟨⟨⟨⟨-, -⟩, -⟩, h1⟩, h2⟩, -⟩ := hp
        exact ⟨h1, h2, rfl⟩
    · exact StageResult.noConfusion h
  · intro canonize ok p q h
    unfold path2_canon at h
    split at h
    · split at h
      · have h' := StageResult.success.inj h
        subst h'
        rename_i hpre hok
        simp [canonPreB] at hpre
        obtain ⟨⟨⟨⟨⟨-, -⟩, -⟩, h1⟩, h2⟩, h3⟩ := hpre
        exact ⟨h1, h2, h3, rfl, rfl, rfl⟩
      · exact StageResult.noConfusion h
    · exact StageResult.noConfusion h

/-- Witness for C3: the three stage transitions evaluated on concrete
Paths: tidy on `pC4`, probe on `qC4`, canon on `pC8`. -/
theorem C3_flags_monotone_witness :
    (pC4.flags.resolved = true ∧ pC4.flags.tidy = false ∧
     qC4.flags.resolved = pC4.flags.resolved ∧ qC4.flags.tidy = true ∧
     qC4.flags.canonical = pC4.flags.canonical) ∧
    (qC4.flags.resolved = true ∧ qC4.flags.tidy = true ∧
     (Path.mk (some "/a//b") none none .maildir ⟨true, true, false⟩).flags
       = qC4.flags) ∧
    (pC8.flags.resolved = true ∧ pC8.flags.tidy = true ∧
     pC8.flags.canonical = false ∧
     (Path.mk (some "/a/b") (some "/a/b") none .maildir
        ⟨true, true, true⟩).flags.resolved = pC8.flags.resolved ∧
     (Path.mk (some "/a/b") (some "/a/b") none .maildir
        ⟨true, true, true⟩).flags.tidy = pC8.flags.tidy ∧
     (Path.mk (some "/a/b") (some "/a/b") none .maildir
        ⟨true, true, true⟩).flags.canonical = true) :=
  ⟨C3_flags_monotone.1 id true pC4 qC4 (by decide),
   C3_flags_monotone.2.1 .maildir (some ⟨0, 0⟩) true qC4
     (Path.mk (some "/a//b") none none .maildir ⟨true, true, false⟩) (by decide),
   C3_flags_monotone.2.2 id true pC8
     (Path.mk (some "/a/b") (some "/a/b") none .maildir ⟨true, true, true⟩)
     (by decide)⟩

/-- C4: the header's tidy contract clashes with its own probe contract. The
Path `pC4` (RESOLVED set, TIDY and CANONICAL unset, type still unknown) is
exactly what the documented pipeline hands to tidy, and the spec-form tidy
accepts it, producing `qC4`, which satisfies the probe precondition (probe
demands TIDY set and type still MUTT_UNKNOWN); yet the header's extra tidy
clause `path->type is not #MUTT_UNKNOWN` rejects `pC4` as a contract
violation, making the documented tidy-then-probe order unsatisfiable. The
stat clause holds exactly as claimed: required when the backend is local,
not otherwise. -/
theorem C4_tidy_type_clause_clash :
    tidyPreB pC4 = true ∧
    path2_tidy id true pC4 = .success qC4 ∧
    probePreB qC4 = true ∧
    tidyPreHdrB pC4 = false ∧
    path2_tidy_hdr id true pC4 = .contractViolation ∧
    probeStatOkB true none = false ∧
    probeStatOkB true (some ⟨0, 0⟩) = true ∧
    probeStatOkB false none = true := by
  decide

/-- C5: compare is a three-way ordering in {-1, 0, 1} over the canonical
strings, and any Path that has passed tidy, probe and canon in that order is
fully canonicalized and compares equal to itself. -/
theorem C5_compare_refl_after_pipeline :
    (∀ (norm canonize : String → String) (t : MailboxType) (st : Option Stat)
        (l : Bool) (p q r s : Path),
        path2_tidy norm true p = .success q →
        path2_probe t st l q = .success r →
        path2_canon canonize true r = .success s →
        comparePreB s = true ∧ path2_compare s s = 0) ∧
    (∀ p1 p2 : Path,
        path2_compare p1 p2 = -1 ∨ path2_compare p1 p2 = 0 ∨
        path2_compare p1 p2 = 1) := by
  constructor
  · intro norm canonize t st l p q r s h1 h2 h3
    unfold path2_canon at h3
    split at h3
    · split at h3
      · have h' := StageResult.success.inj h3
        subst h'
        rename_i hpre hok
        simp [canonPreB] at hpre
        obtain ⟨⟨⟨⟨⟨-, -⟩, hty⟩, hres⟩, htd⟩, -⟩ := hpre
        constructor
        · simp [comparePreB, hty, hres, htd]
        · simp [path2_compare]
      · exact StageResult.noConfusion h3
    · exact StageResult.noConfusion h3
  · intro p1 p2
    unfold path2_compare
    by_cases h1 : p1.canon.getD "" < p2.canon.getD ""
    · simp [h1]
    · by_cases h2 : p2.canon.getD "" < p1.canon.getD ""
      · simp [h1, h2]
      · simp [h1, h2]

/-- Witness for C5: a concrete run of the whole pipeline — tidy, probe,
canon on `pC4` — ends fully canonicalized and self-compares to 0. -/
theorem C5_compare_refl_witness :
    comparePreB (Path.mk (some "/a//b") (some "/a//b") none .maildir
      ⟨true, true, true⟩) = true ∧
    path2_compare
      (Path.mk (some "/a//b") (some "/a//b") none .maildir ⟨true, true, true⟩)
      (Path.mk (some "/a//b") (some "/a//b") none .maildir ⟨true, true, true⟩)
      = 0 :=
  C5_compare_refl_after_pipeline.1 id id .maildir (some ⟨0, 0⟩) true
    pC4 qC4 (Path.mk (some "/a//b") none none .maildir ⟨true, true, false⟩)
    (Path.mk (some "/a//b") (some "/a//b") none .maildir ⟨true, true, true⟩)
    (by decide) (by decide) (by decide)

/-- C6: calling canon on a Path whose CANONICAL flag is already set (or
whose canon string is already present) is a contract violation, reported as
such, and never a silent successful no-op. -/
theorem C6_canon_twice_contract_violation (canonize : String → String)
    (ok : Bool) (p : Path)
    (h : p.flags.canonical = true ∨ p.canon.isSome = true) :
    path2_canon canonize ok p = .contractViolation ∧
    ∀ q : Path, path2_canon canonize ok p ≠ .success q := by
  have hpre : canonPreB p = false := by
    rcases h with h | h
    · simp [canonPreB, h]
    · obtain ⟨v, hv⟩ := Option.isSome_iff_exists.mp h
      simp [canonPreB, hv]
  have h1 : path2_canon canonize ok p = .contractViolation := by
    simp [path2_canon, hpre]
  exact ⟨h1, fun q hq => by rw [h1] at hq; exact StageResult.noConfusion hq⟩

/-- Witness for C6: canon applied to the already-canonical Path `pC6` is a
contract violation and not a success. -/
theorem C6_canon_twice_witness :
    pC6.flags.canonical = true ∧
    (path2_canon id true pC6 = .contractViolation ∧
     ∀ q : Path, path2_canon id true pC6 ≠ .success q) :=
  ⟨rfl, C6_canon_twice_contract_violation id true pC6 (Or.inl rfl)⟩

/-- C7: msg_close releases the handle (the data stream ends closed)
regardless of whether commit was called or succeeded, always succeeds
(retval 0) — in particular right after a failed commit — and leaves the
mail store untouched. -/
theorem C7_close_always_safe (m : Mailbox) (msg : Message) :
    (mx_msg_close m msg).1 = 0 ∧
    (mx_msg_close m msg).2.1 = m ∧
    (mx_msg_close m msg).2.2.fpOpen = false ∧
    (mx_msg_close (mx_msg_commit false m msg).2.1
       (mx_msg_commit false m msg).2.2).1 = 0 ∧
    (mx_msg_close (mx_msg_commit false m msg).2.1
       (mx_msg_commit false m msg).2.2).2.1 = (mx_msg_commit false m msg).2.1 := by
  simp [mx_msg_close, mx_msg_commit]

/-- Counterexample for C8: on the valid input `pC8` the parent operation can
also end in the documented "-2 Error" outcome (src/mx.h line 425), which is
neither the root-has-no-parent failure nor a success — refuting the claimed
two-way alternative. -/
theorem C8_parent_error_counterexample :
    parentPreB pC8 = true ∧
    path2_parent (fun _ => some "/a") true pC8 = .error ∧
    (path2_parent (fun _ => some "/a") true pC8).isSuccess = false ∧
    path2_parent (fun _ => some "/a") true pC8 ≠ .noParent := by
  decide

/-- C8 (amended): for every Path with RESOLVED and TIDY set (and orig
present, type known), the parent operation fails because the path is a root
with no parent, or fails with an error, or succeeds and returns a fresh Path
whose type equals the input's type and whose flags are exactly RESOLVED and
TIDY — not yet CANONICAL, canon and pretty absent. -/
theorem C8_parent_outcomes (parentStr : String → Option String) (err : Bool)
    (p : Path) (h : parentPreB p = true) :
    path2_parent parentStr err p = .noParent ∨
    path2_parent parentStr err p = .error ∨
    ∃ q : Path, path2_parent parentStr err p = .success q ∧
      q.type = p.type ∧ q.flags.resolved = true ∧ q.flags.tidy = true ∧
      q.flags.canonical = false ∧ q.canon = none ∧ q.pretty = none := by
  unfold path2_parent
  rw [if_pos h]
  cases err with
  | true => exact Or.inr (Or.inl rfl)
  | false =>
    cases hps : parentStr (p.orig.getD "") with
    | none => exact Or.inl rfl
    | some s =>
      exact Or.inr (Or.inr ⟨_, rfl, rfl, rfl, rfl, rfl, rfl, rfl⟩)

/-- Witness for C8 (amended) at the concrete Path `pC8` with a successful
backend parent computation. -/
theorem C8_parent_outcomes_witness :
    parentPreB pC8 = true ∧
    (path2_parent (fun _ => some "/a") false pC8 = .noParent ∨
     path2_parent (fun _ => some "/a") false pC8 = .error ∨
     ∃ q : Path, path2_parent (fun _ => some "/a") false pC8 = .success q ∧
       q.type = pC8.type ∧ q.flags.resolved = true ∧ q.flags.tidy = true ∧
       q.flags.canonical = false ∧ q.canon = none ∧ q.pretty = none) :=
  ⟨by decide, C8_parent_outcomes (fun _ => some "/a") false pC8 (by decide)⟩

/-- C9: on a mailbox whose backend supports tags, tags_edit returns a
tri-state result in {-1, 0, 1} and mutates nothing — the Mailbox comes back
unchanged and a repeated invocation gives the identical outcome, so the
caller can re-prompt after invalid input without side effects; persistence
is the separate tags_commit step. -/
theorem C9_tags_edit_pure_tristate (valid : String → String → Bool)
    (m : Mailbox) (tags : String) (input : Option String)
    (hsup : mx_tags_is_supported m = true) :
    ((mx_tags_edit valid m tags input).1 = -1 ∨
     (mx_tags_edit valid m tags input).1 = 0 ∨
     (mx_tags_edit valid m tags input).1 = 1) ∧
    (mx_tags_edit valid m tags input).2.2 = m ∧
    mx_tags_edit valid (mx_tags_edit valid m tags input).2.2 tags input
      = mx_tags_edit valid m tags input := by
  have hframe : (mx_tags_edit valid m tags input).2.2 = m := by
    simp [mx_tags_edit, hsup]
  refine ⟨?_, hframe, by rw [hframe]⟩
  cases input with
  | none => simp [mx_tags_edit, hsup, tags_edit_backend]
  | some s =>
    by_cases hv : valid tags s = true
    · simp [mx_tags_edit, hsup, tags_edit_backend, hv]
    · simp [mx_tags_edit, hsup, tags_edit_backend, hv]

/-- Witness for C9: a tags-capable mailbox, a concrete validator and a
concrete proposed string. -/
theorem C9_tags_edit_witness :
    mx_tags_is_supported (Mailbox.mk opsNotmuchTags ⟨[], []⟩) = true ∧
    (((mx_tags_edit (fun _ s => !s.isEmpty)
         (Mailbox.mk opsNotmuchTags ⟨[], []⟩) "old" (some "inbox")).1 = -1 ∨
      (mx_tags_edit (fun _ s => !s.isEmpty)
         (Mailbox.mk opsNotmuchTags ⟨[], []⟩) "old" (some "inbox")).1 = 0 ∨
      (mx_tags_edit (fun _ s => !s.isEmpty)
         (Mailbox.mk opsNotmuchTags ⟨[], []⟩) "old" (some "inbox")).1 = 1) ∧
     (mx_tags_edit (fun _ s => !s.isEmpty)
        (Mailbox.mk opsNotmuchTags ⟨[], []⟩) "old" (some "inbox")).2.2
       = Mailbox.mk opsNotmuchTags ⟨[], []⟩ ∧
     mx_tags_edit (fun _ s => !s.isEmpty)
       ((mx_tags_edit (fun _ s => !s.isEmpty)
          (Mailbox.mk opsNotmuchTags ⟨[], []⟩) "old" (some "inbox")).2.2)
       "old" (some "inbox")
       = mx_tags_edit (fun _ s => !s.isEmpty)
           (Mailbox.mk opsNotmuchTags ⟨[], []⟩) "old" (some "inbox")) :=
  ⟨rfl, C9_tags_edit_pure_tristate (fun _ s => !s.isEmpty)
     (Mailbox.mk opsNotmuchTags ⟨[], []⟩) "old" (some "inbox") rfl⟩

/-- C10: for a non-empty path string (the contract requires the path
non-NULL and non-empty), mx_path_is_empty returns exactly one of -1, 0, 1:
1 precisely when the mailbox exists and is empty, 0 precisely when it
contains mail, -1 precisely on error. -/
theorem C10_path_is_empty_tristate (store : List (String × List StoredMsg))
    (path : String) (hne : path ≠ "") :
    (mx_path_is_empty store path = -1 ∨ mx_path_is_empty store path = 0 ∨
     mx_path_is_empty store path = 1) ∧
    (mx_path_is_empty store path = 1 ↔ store.lookup path = some []) ∧
    (mx_path_is_empty store path = 0 ↔
      ∃ msgs, store.lookup path = some msgs ∧ msgs ≠ []) ∧
    (mx_path_is_empty store path = -1 ↔ store.lookup path = none) := by
  unfold mx_path_is_empty
  rw [if_neg hne]
  cases hl : store.lookup path with
  | none => simp
  | some msgs =>
    cases msgs with
    | nil => simp
    | cons a as => simp

/-- Witness for C10 at a concrete store holding one empty mailbox. -/
theorem C10_path_is_empty_witness :
    "inbox" ≠ "" ∧
    ((mx_path_is_empty [("inbox", [])] "inbox" = -1 ∨
      mx_path_is_empty [("inbox", [])] "inbox" = 0 ∨
      mx_path_is_empty [("inbox", [])] "inbox" = 1) ∧
     (mx_path_is_empty [("inbox", [])] "inbox" = 1 ↔
       ([("inbox", [])] : List (String × List StoredMsg)).lookup "inbox"
         = some []) ∧
     (mx_path_is_empty [("inbox", [])] "inbox" = 0 ↔
       ∃ msgs, ([("inbox", [])] : List (String × List StoredMsg)).lookup "inbox"
         = some msgs ∧ msgs ≠ []) ∧
     (mx_path_is_empty [("inbox", [])] "inbox" = -1 ↔
       ([("inbox", [])] : List (String × List StoredMsg)).lookup "inbox"
         = none)) :=
  ⟨by decide, C10_path_is_empty_tristate [("inbox", [])] "inbox" (by decide)⟩

end Mx
